import Mathlib

/-!
Verification of the usage-limit gate in `src/limits-manager.js`
(NixyDigital).  The file embeds the data model and the operations of the
limits manager in Lean: Firestore documents become a list of records, a
Firestore query becomes a `Query` value, and the remote store becomes a
function `Query → Except String Nat` (the `Except` layer models an awaited
query that may reject).  Wall-clock time is modelled by `LocalTime`,
a local calendar instant ordered lexicographically, which is the order
Firestore `Timestamp` comparison induces on instants of one time zone.
-/

/-- A local calendar instant: year, month (0-based, as JavaScript
`getMonth()`), day of month (1-based, as `getDate()`), and milliseconds
since local midnight.  Chronological order on instants of a single time
zone is lexicographic order on these fields. -/
structure LocalTime where
  year : Nat
  month : Nat
  day : Nat
  ms : Nat
deriving DecidableEq, Repr

/-- Chronological comparison of two local instants (lexicographic). -/
def LocalTime.le (a b : LocalTime) : Bool :=
  a.year < b.year ||
    (a.year == b.year && (a.month < b.month ||
      (a.month == b.month && (a.day < b.day ||
        (a.day == b.day && a.ms ≤ b.ms)))))

/-- A stored document: its collection name, its `userId` field, and its
timestamp fields (by field name).  Study materials, quiz results and AI
writings are all documents; a document need not carry any timestamp
field. -/
structure Doc where
  coll : String
  userId : String
  fields : List (String × LocalTime)
deriving DecidableEq, Repr

/-- The Record Store state: the documents of all collections. -/
abbrev Store := List Doc

/-- A Firestore count query as issued by the limits manager: a collection
name, an equality filter on `userId`, and an optional `>=` filter on a
named timestamp field. -/
structure Query where
  coll : String
  userId : String
  tsFilter : Option (String × LocalTime)
deriving DecidableEq, Repr

/-- Whether a document matches a query: same collection, same `userId`,
and, when the query carries a timestamp filter, the document has that
timestamp field with value `>=` the bound (a document missing the field
does not match, as in Firestore). -/
def matchesQuery (q : Query) (d : Doc) : Bool :=
  d.coll == q.coll && d.userId == q.userId &&
    (match q.tsFilter with
     | none => true
     | some (name, bound) =>
       match d.fields.lookup name with
       | some t => LocalTime.le bound t
       | none => false)

/-- `snapshot.size` of `getDocs(q)` over a concrete store state. -/
def runQuery (db : Store) (q : Query) : Nat :=
  (db.filter (matchesQuery q)).length

/-- The remote Record Store as seen by the limits manager: each awaited
`getDocs` call either resolves to a count or rejects with an error. -/
abbrev FStore := Query → Except String Nat

/-- A Record Store that answers every query from the concrete state `db`
and never fails. -/
def Store.toF (db : Store) : FStore :=
  fun q => Except.ok (runQuery db q)

/-- `FREE_LIMITS` (src/limits-manager.js lines 4-9). -/
structure FreeLimits where
  studyMaterials : Nat
  quizzesPerMonth : Nat
  aiWritingsPerDay : Nat
  questionsPerMaterial : Nat
deriving DecidableEq, Repr

def FREE_LIMITS : FreeLimits :=
  { studyMaterials := 3
    quizzesPerMonth := 5
    aiWritingsPerDay := 1
    questionsPerMaterial := 5 }

/-- `PLAN_NAMES` (src/limits-manager.js lines 11-15): capitalized display
names of the three plans. -/
structure PlanNames where
  free : String
  starter : String
  pro : String
deriving DecidableEq, Repr

def PLAN_NAMES : PlanNames :=
  { free := "Free", starter := "Starter", pro := "Pro" }

/-- The decision object returned by the evaluator.  Each optional field
mirrors a property that the JavaScript object may or may not carry:
`\x7b allowed: true \x7d` is the record with every optional field
`none`. -/
structure Decision where
  allowed : Bool
  reason : Option String := none
  current : Option Nat := none
  limit : Option Nat := none
  remaining : Option Int := none
  upgradeMessage : Option String := none
deriving DecidableEq, Repr

/-- The query issued by `checkMaterialLimit`: all `study_materials`
documents of the user, no time filter (lines 54-56). -/
def materialQuery (userId : String) : Query :=
  { coll := "study_materials", userId := userId, tsFilter := none }

/-- `new Date(now.getFullYear(), now.getMonth(), 1)` (line 85): the start
of the current local calendar month. -/
def monthStartOf (now : LocalTime) : LocalTime :=
  { year := now.year, month := now.month, day := 1, ms := 0 }

/-- `new Date(now.getFullYear(), now.getMonth(), now.getDate())`
(line 123): the start of the current local calendar day. -/
def dayStartOf (now : LocalTime) : LocalTime :=
  { year := now.year, month := now.month, day := now.day, ms := 0 }

/-- The query issued by `checkQuizLimit`: `quiz_results` documents of the
user with `completedAt >= monthStartTimestamp` (lines 88-93). -/
def quizQuery (now : LocalTime) (userId : String) : Query :=
  { coll := "quiz_results", userId := userId
    tsFilter := some ("completedAt", monthStartOf now) }

/-- The query issued by `checkWritingLimit`: `ai_writings` documents of
the user with `createdAt >= todayStartTimestamp` (lines 126-131). -/
def writingQuery (now : LocalTime) (userId : String) : Query :=
  { coll := "ai_writings", userId := userId
    tsFilter := some ("createdAt", dayStartOf now) }

/-- `checkMaterialLimit` (lines 51-77).  The awaited `getDocs` is the
`getDocs` argument; a rejected query propagates as `Except.error`. -/
def checkMaterialLimit (getDocs : FStore) (userId : String) :
    Except String Decision :=
  match getDocs (materialQuery userId) with
  | Except.error e => Except.error e
  | Except.ok count =>
    let limit := FREE_LIMITS.studyMaterials
    if count ≥ limit then
      Except.ok
        { allowed := false
          reason := some
            s!"You\x27ve reached the free plan limit of {limit} study materials."
          current := some count
          limit := some limit
          upgradeMessage := some
            "Upgrade to Starter ($10/month) for 20 materials or Pro ($20/month) for unlimited!" }
    else
      Except.ok
        { allowed := true
          current := some count
          limit := some limit
          remaining := some ((limit : Int) - (count : Int)) }

/-- `checkQuizLimit` (lines 80-115): quizzes completed since the start of
the current month, against the monthly limit. -/
def checkQuizLimit (getDocs : FStore) (now : LocalTime) (userId : String) :
    Except String Decision :=
  match getDocs (quizQuery now userId) with
  | Except.error e => Except.error e
  | Except.ok count =>
    let limit := FREE_LIMITS.quizzesPerMonth
    if count ≥ limit then
      Except.ok
        { allowed := false
          reason := some
            s!"You\x27ve taken {limit} quizzes this month (free plan limit)."
          current := some count
          limit := some limit
          upgradeMessage := some
            "Upgrade to Starter or Pro for unlimited quizzes!" }
    else
      Except.ok
        { allowed := true
          current := some count
          limit := some limit
          remaining := some ((limit : Int) - (count : Int)) }

/-- `checkWritingLimit` (lines 118-153): AI writings created since the
start of the current day, against the daily limit. -/
def checkWritingLimit (getDocs : FStore) (now : LocalTime) (userId : String) :
    Except String Decision :=
  match getDocs (writingQuery now userId) with
  | Except.error e => Except.error e
  | Except.ok count =>
    let limit := FREE_LIMITS.aiWritingsPerDay
    if count ≥ limit then
      Except.ok
        { allowed := false
          reason := some
            s!"You\x27ve used your {limit} AI writing for today (free plan limit)."
          current := some count
          limit := some limit
          upgradeMessage := some
            "Upgrade to Starter for 10 writings/day or Pro for unlimited!" }
    else
      Except.ok
        { allowed := true
          current := some count
          limit := some limit
          remaining := some ((limit : Int) - (count : Int)) }

/-- `getUserPlan` (lines 45-48): the stub plan resolver, returning
`"free"` for every user. -/
def getUserPlan (userId : String) : String := "free"

/-- The body of `canUserPerformAction` after the plan has been resolved
(lines 21-41), with the resolved plan as a parameter: the paid-plan test
and the action dispatch. -/
def canUserPerformActionPlan (getDocs : FStore) (now : LocalTime)
    (userPlan userId action : String) : Except String Decision :=
  if userPlan != "free" then
    Except.ok { allowed := true }
  else
    match action with
    | "upload_material" => checkMaterialLimit getDocs userId
    | "take_quiz" => checkQuizLimit getDocs now userId
    | "ai_writing" => checkWritingLimit getDocs now userId
    | "generate_questions" => Except.ok { allowed := true }
    | _ => Except.ok { allowed := true }

/-- `canUserPerformAction` (lines 18-42): resolve the plan, then dispatch. -/
def canUserPerformAction (getDocs : FStore) (now : LocalTime)
    (userId action : String) : Except String Decision :=
  canUserPerformActionPlan getDocs now (getUserPlan userId) userId action

/-- One category of `getUserUsageStats`: the reassembled
`\x7b used, limit, remaining \x7d` object. -/
structure UsageCat where
  used : Option Nat
  limit : Option Nat
  remaining : Option Int
deriving DecidableEq, Repr

/-- The stats object returned by `getUserUsageStats`. -/
structure UsageStats where
  materials : UsageCat
  quizzes : UsageCat
  writings : UsageCat
deriving DecidableEq, Repr

/-- `getUserUsageStats` (lines 156-178): run the three counters (never
consulting the plan resolver) and reassemble their decisions; a rejected
query propagates as `Except.error` in order (materials first). -/
def getUserUsageStats (getDocs : FStore) (now : LocalTime)
    (userId : String) : Except String UsageStats :=
  match checkMaterialLimit getDocs userId with
  | Except.error e => Except.error e
  | Except.ok materialCheck =>
    match checkQuizLimit getDocs now userId with
    | Except.error e => Except.error e
    | Except.ok quizCheck =>
      match checkWritingLimit getDocs now userId with
      | Except.error e => Except.error e
      | Except.ok writingCheck =>
        Except.ok
          { materials :=
              { used := materialCheck.current
                limit := materialCheck.limit
                remaining :=
                  if materialCheck.allowed then materialCheck.remaining
                  else some 0 }
            quizzes :=
              { used := quizCheck.current
                limit := quizCheck.limit
                remaining :=
                  if quizCheck.allowed then quizCheck.remaining
                  else some 0 }
            writings :=
              { used := writingCheck.current
                limit := writingCheck.limit
                remaining :=
                  if writingCheck.allowed then writingCheck.remaining
                  else some 0 } }

/-! ## Spec-side counting definitions

The following definitions transcribe the specification's words for the
three window counters (§4.2), to be compared with the counters embedded
from the source.  They are deliberately written from the spec text, not
from the code. -/

/-- Spec §4.2: the start of the current local calendar month. -/
def specStartOfMonth (now : LocalTime) : LocalTime :=
  { year := now.year, month := now.month, day := 1, ms := 0 }

/-- Spec §4.2: the start of the current local calendar day. -/
def specStartOfDay (now : LocalTime) : LocalTime :=
  { year := now.year, month := now.month, day := now.day, ms := 0 }

/-- Spec §4.2, Material Counter: "window = all time (no time filter);
counts all records where owning user identifier matches". -/
def specMaterialCount (db : Store) (u : String) : Nat :=
  (db.filter (fun d => d.coll == "study_materials" && d.userId == u)).length

/-- Spec §4.2, Quiz Counter: "counts quiz-result records for the user
with completion timestamp ≥ window start", window start being the start
of the current calendar month (inclusive). -/
def specQuizCount (db : Store) (now : LocalTime) (u : String) : Nat :=
  (db.filter (fun d => d.coll == "quiz_results" && d.userId == u &&
    ((d.fields.lookup "completedAt").any
      (fun t => LocalTime.le (specStartOfMonth now) t)))).length

/-- Spec §4.2, Writing Counter: "counts AI-writing records for the user
with creation timestamp ≥ window start", window start being the start of
the current calendar day (inclusive). -/
def specWritingCount (db : Store) (now : LocalTime) (u : String) : Nat :=
  (db.filter (fun d => d.coll == "ai_writings" && d.userId == u &&
    ((d.fields.lookup "createdAt").any
      (fun t => LocalTime.le (specStartOfDay now) t)))).length

/-! ## Helper lemmas -/

/-- The material query counts exactly what the spec's Material Counter
counts. -/
lemma runQuery_materialQuery (db : Store) (u : String) :
    runQuery db (materialQuery u) = specMaterialCount db u := by
  unfold runQuery specMaterialCount
  congr 1
  apply List.filter_congr
  intro d _
  simp [matchesQuery, materialQuery]

/-- The quiz query counts exactly what the spec's Quiz Counter counts. -/
lemma runQuery_quizQuery (db : Store) (now : LocalTime) (u : String) :
    runQuery db (quizQuery now u) = specQuizCount db now u := by
  unfold runQuery specQuizCount
  congr 1
  apply List.filter_congr
  intro d _
  simp only [matchesQuery, quizQuery]
  cases h : d.fields.lookup "completedAt" <;>
    simp [h, Option.any, specStartOfMonth, monthStartOf]

/-- The writing query counts exactly what the spec's Writing Counter
counts. -/
lemma runQuery_writingQuery (db : Store) (now : LocalTime) (u : String) :
    runQuery db (writingQuery now u) = specWritingCount db now u := by
  unfold runQuery specWritingCount
  congr 1
  apply List.filter_congr
  intro d _
  simp only [matchesQuery, writingQuery]
  cases h : d.fields.lookup "createdAt" <;>
    simp [h, Option.any, specStartOfDay, dayStartOf]

/-- `checkMaterialLimit` over a concrete store: the `allowed` flag is the
comparison of the count with the limit. -/
lemma checkMaterialLimit_allowed (db : Store) (u : String) :
    (checkMaterialLimit (Store.toF db) u).map Decision.allowed
      = Except.ok (!decide (FREE_LIMITS.studyMaterials ≤ runQuery db (materialQuery u))) := by
  unfold checkMaterialLimit Store.toF
  by_cases h : runQuery db (materialQuery u) ≥ FREE_LIMITS.studyMaterials <;>
    simp [h, Except.map]

/-- `checkQuizLimit` over a concrete store: the `allowed` flag is the
comparison of the count with the limit. -/
lemma checkQuizLimit_allowed (db : Store) (now : LocalTime) (u : String) :
    (checkQuizLimit (Store.toF db) now u).map Decision.allowed
      = Except.ok (!decide (FREE_LIMITS.quizzesPerMonth ≤ runQuery db (quizQuery now u))) := by
  unfold checkQuizLimit Store.toF
  by_cases h : runQuery db (quizQuery now u) ≥ FREE_LIMITS.quizzesPerMonth <;>
    simp [h, Except.map]

/-- `checkWritingLimit` over a concrete store: the `allowed` flag is the
comparison of the count with the limit. -/
lemma checkWritingLimit_allowed (db : Store) (now : LocalTime) (u : String) :
    (checkWritingLimit (Store.toF db) now u).map Decision.allowed
      = Except.ok (!decide (FREE_LIMITS.aiWritingsPerDay ≤ runQuery db (writingQuery now u))) := by
  unfold checkWritingLimit Store.toF
  by_cases h : runQuery db (writingQuery now u) ≥ FREE_LIMITS.aiWritingsPerDay <;>
    simp [h, Except.map]

/-! ## Claim theorems -/

/-- C1: for a free-plan user (every user, since the plan resolver returns
`free`), `canUserPerformAction` on each of the three gated actions yields
`allowed = false` exactly when the count of matching records in the
action's window is `>=` the action's static limit, and `allowed = true`
exactly when the count is strictly below it; in particular a count equal
to the limit is denied. -/
theorem c1_free_gate_threshold (db : Store) (now : LocalTime) (u : String) :
    ((canUserPerformAction (Store.toF db) now u "upload_material").map Decision.allowed
      = Except.ok (!decide (FREE_LIMITS.studyMaterials ≤ runQuery db (materialQuery u))))
    ∧ ((canUserPerformAction (Store.toF db) now u "take_quiz").map Decision.allowed
      = Except.ok (!decide (FREE_LIMITS.quizzesPerMonth ≤ runQuery db (quizQuery now u))))
    ∧ ((canUserPerformAction (Store.toF db) now u "ai_writing").map Decision.allowed
      = Except.ok (!decide (FREE_LIMITS.aiWritingsPerDay ≤ runQuery db (writingQuery now u)))) :=
  ⟨checkMaterialLimit_allowed db u, checkQuizLimit_allowed db now u,
    checkWritingLimit_allowed db now u⟩

/-- C2: the three counters are parameterized exactly as the spec says:
materials = all `study_materials` records of the user, no time filter,
limit 3; quizzes = `quiz_results` records with `completedAt` at or after
the start of the current local calendar month, limit 5; writings =
`ai_writings` records with `createdAt` at or after the start of the
current local calendar day, limit 1.  The spec-side counts
(`specMaterialCount`, `specQuizCount`, `specWritingCount`) are
transcribed from the spec's words; the theorem equates them with the
`current`/`limit` fields the embedded counters report. -/
theorem c2_counter_parameterization (db : Store) (now : LocalTime) (u : String) :
    ((checkMaterialLimit (Store.toF db) u).map (fun d => (d.current, d.limit))
      = Except.ok (some (specMaterialCount db u), some 3))
    ∧ ((checkQuizLimit (Store.toF db) now u).map (fun d => (d.current, d.limit))
      = Except.ok (some (specQuizCount db now u), some 5))
    ∧ ((checkWritingLimit (Store.toF db) now u).map (fun d => (d.current, d.limit))
      = Except.ok (some (specWritingCount db now u), some 1)) := by
  refine ⟨?_, ?_, ?_⟩
  · rw [← runQuery_materialQuery]
    unfold checkMaterialLimit Store.toF
    by_cases h : 3 ≤ runQuery db (materialQuery u) <;> simp [FREE_LIMITS, h, Except.map]
  · rw [← runQuery_quizQuery]
    unfold checkQuizLimit Store.toF
    by_cases h : 5 ≤ runQuery db (quizQuery now u) <;> simp [FREE_LIMITS, h, Except.map]
  · rw [← runQuery_writingQuery]
    unfold checkWritingLimit Store.toF
    by_cases h : 1 ≤ runQuery db (writingQuery now u) <;> simp [FREE_LIMITS, h, Except.map]

/-- The Decision invariant of spec §3: when allowed, `remaining =
max(limit - current, 0)` with `current < limit`; when denied,
`current >= limit`. -/
def DecisionInv (d : Decision) : Prop :=
  (d.allowed = true →
    ∃ c l, d.current = some c ∧ d.limit = some l ∧ c < l ∧
      d.remaining = some (max ((l : Int) - (c : Int)) 0))
  ∧ (d.allowed = false →
    ∃ c l, d.current = some c ∧ d.limit = some l ∧ l ≤ c)

/-- C3: every Decision a window counter produces satisfies the invariant:
if allowed, `remaining = max(limit - current, 0)` (and `current < limit`,
so this equals `limit - current`); if denied, `current >= limit`. -/
theorem c3_decision_invariant (db : Store) (now : LocalTime) (u : String) :
    (∀ d, checkMaterialLimit (Store.toF db) u = Except.ok d → DecisionInv d)
    ∧ (∀ d, checkQuizLimit (Store.toF db) now u = Except.ok d → DecisionInv d)
    ∧ (∀ d, checkWritingLimit (Store.toF db) now u = Except.ok d → DecisionInv d) := by
  refine ⟨?_, ?_, ?_⟩ <;> intro d hd
  · unfold checkMaterialLimit Store.toF at hd
    by_cases h : 3 ≤ runQuery db (materialQuery u)
    · simp [FREE_LIMITS, h] at hd
      subst hd
      exact ⟨fun ha => by simp at ha, fun _ => ⟨_, _, rfl, rfl, h⟩⟩
    · simp [FREE_LIMITS, h] at hd
      subst hd
      refine ⟨fun _ => ⟨runQuery db (materialQuery u), 3, rfl, rfl, by omega, ?_⟩,
        fun ha => by simp at ha⟩
      rw [max_eq_left (by omega)]
      simp
  · unfold checkQuizLimit Store.toF at hd
    by_cases h : 5 ≤ runQuery db (quizQuery now u)
    · simp [FREE_LIMITS, h] at hd
      subst hd
      exact ⟨fun ha => by simp at ha, fun _ => ⟨_, _, rfl, rfl, h⟩⟩
    · simp [FREE_LIMITS, h] at hd
      subst hd
      refine ⟨fun _ => ⟨runQuery db (quizQuery now u), 5, rfl, rfl, by omega, ?_⟩,
        fun ha => by simp at ha⟩
      rw [max_eq_left (by omega)]
      simp
  · unfold checkWritingLimit Store.toF at hd
    by_cases h : 1 ≤ runQuery db (writingQuery now u)
    · simp [FREE_LIMITS, h] at hd
      subst hd
      exact ⟨fun ha => by simp at ha, fun _ => ⟨_, _, rfl, rfl, h⟩⟩
    · simp [FREE_LIMITS, h] at hd
      subst hd
      refine ⟨fun _ => ⟨runQuery db (writingQuery now u), 1, rfl, rfl, by omega, ?_⟩,
        fun ha => by simp at ha⟩
      rw [max_eq_left (by omega)]
      simp

/-- A fixed evaluation instant shared by the concrete witnesses:
2026-10-12 local midnight (month 9 is October, 0-based). -/
def t0 : LocalTime := { year := 2026, month := 9, day := 12, ms := 0 }

/-- Witness for C3: the material counter on the empty store allows with
`current = 0`, `limit = 3`, `remaining = 3`, and that Decision satisfies
the invariant. -/
theorem c3_decision_invariant_witness :
    DecisionInv
      { allowed := true, current := some 0, limit := some 3, remaining := some 3 } :=
  (c3_decision_invariant [] t0 "u").1 _ rfl

/-- C4: when the resolved plan is not the exact string `"free"`, the
evaluator body returns the bare `\x7b allowed: true \x7d` decision — no
`current`, `limit`, `remaining`, `reason` or `upgradeMessage` — for every
action kind and every Record Store.  The store is universally
quantified (including stores whose every query fails), so no Record Store
query is consulted on this path. -/
theorem c4_paid_plan_unconditional_allow (getDocs : FStore) (now : LocalTime)
    (plan u a : String) (h : plan ≠ "free") :
    canUserPerformActionPlan getDocs now plan u a
      = Except.ok { allowed := true } := by
  unfold canUserPerformActionPlan
  rw [if_pos]
  exact bne_iff_ne.mpr h

/-- Witness for C4: a user on the `"Pro"` plan is allowed to upload a
material even when the Record Store rejects every query. -/
theorem c4_paid_plan_unconditional_allow_witness :
    canUserPerformActionPlan (fun _ => Except.error "store down") t0
      "Pro" "u" "upload_material" = Except.ok { allowed := true } :=
  c4_paid_plan_unconditional_allow _ t0 "Pro" "u" "upload_material" (by decide)

/-- C5: for every plan and every Record Store, an action kind that is
none of the three gated ones — in particular `generate_questions`, and
any unrecognized kind — yields the bare `\x7b allowed: true \x7d`
decision; the universally quantified store shows no count is performed
against the questions-per-material quota (or any other). -/
theorem c5_ungated_actions_allowed (getDocs : FStore) (now : LocalTime)
    (plan u a : String) (h1 : a ≠ "upload_material") (h2 : a ≠ "take_quiz")
    (h3 : a ≠ "ai_writing") :
    canUserPerformActionPlan getDocs now plan u a
      = Except.ok { allowed := true } := by
  unfold canUserPerformActionPlan
  split
  · rfl
  · split <;> first | rfl | simp_all

/-- Witness for C5: `generate_questions` on the free plan is allowed even
when the Record Store rejects every query. -/
theorem c5_ungated_actions_allowed_witness :
    canUserPerformActionPlan (fun _ => Except.error "store down") t0
      "free" "u" "generate_questions" = Except.ok { allowed := true } :=
  c5_ungated_actions_allowed _ t0 "free" "u" "generate_questions"
    (by decide) (by decide) (by decide)

/-- C6: `getUserUsageStats` runs the three window counters (its
definition never consults `getUserPlan`) and reassembles their decisions
into `used`/`limit`/`remaining` triples, forcing `remaining` to 0 when a
counter denied; and a user with zero records in every window gets
`used = 0` and `remaining = limit` in all three categories. -/
theorem c6_usage_stats_reassembly (db : Store) (now : LocalTime) (u : String) :
    (∀ dm dq dw, checkMaterialLimit (Store.toF db) u = Except.ok dm →
      checkQuizLimit (Store.toF db) now u = Except.ok dq →
      checkWritingLimit (Store.toF db) now u = Except.ok dw →
      getUserUsageStats (Store.toF db) now u = Except.ok
        { materials :=
            { used := dm.current, limit := dm.limit
              remaining := if dm.allowed then dm.remaining else some 0 }
          quizzes :=
            { used := dq.current, limit := dq.limit
              remaining := if dq.allowed then dq.remaining else some 0 }
          writings :=
            { used := dw.current, limit := dw.limit
              remaining := if dw.allowed then dw.remaining else some 0 } })
    ∧ (runQuery db (materialQuery u) = 0 →
      runQuery db (quizQuery now u) = 0 →
      runQuery db (writingQuery now u) = 0 →
      getUserUsageStats (Store.toF db) now u = Except.ok
        { materials := { used := some 0, limit := some 3, remaining := some 3 }
          quizzes := { used := some 0, limit := some 5, remaining := some 5 }
          writings := { used := some 0, limit := some 1, remaining := some 1 } }) := by
  constructor
  · intro dm dq dw h1 h2 h3
    unfold getUserUsageStats
    rw [h1, h2, h3]
  · intro h1 h2 h3
    unfold getUserUsageStats checkMaterialLimit checkQuizLimit checkWritingLimit
      Store.toF
    rw [h1, h2, h3]
    simp [FREE_LIMITS]

/-- Witness for C6: on the empty store every category reports
`used = 0`, `remaining = limit`. -/
theorem c6_usage_stats_reassembly_witness :
    getUserUsageStats (Store.toF []) t0 "u" = Except.ok
      { materials := { used := some 0, limit := some 3, remaining := some 3 }
        quizzes := { used := some 0, limit := some 5, remaining := some 5 }
        writings := { used := some 0, limit := some 1, remaining := some 1 } } :=
  (c6_usage_stats_reassembly [] t0 "u").2 rfl rfl rfl

/-- C7: a Record Store failure propagates unchanged.  With a store whose
queries reject with error `e`, each gated evaluation and the stats
aggregator return exactly `Except.error e`: nothing catches the error,
retries, or substitutes a default allow/deny Decision. -/
theorem c7_store_failure_propagates (e : String) (now : LocalTime) (u : String) :
    canUserPerformAction (fun _ => Except.error e) now u "upload_material"
        = Except.error e
    ∧ canUserPerformAction (fun _ => Except.error e) now u "take_quiz"
        = Except.error e
    ∧ canUserPerformAction (fun _ => Except.error e) now u "ai_writing"
        = Except.error e
    ∧ getUserUsageStats (fun _ => Except.error e) now u = Except.error e :=
  ⟨rfl, rfl, rfl, rfl⟩

/-- When the material count is below the limit, the allowed Decision's
`remaining` is `limit - count`. -/
lemma checkMaterialLimit_remaining (db : Store) (u : String)
    (h : runQuery db (materialQuery u) < FREE_LIMITS.studyMaterials) :
    (checkMaterialLimit (Store.toF db) u).map Decision.remaining
      = Except.ok (some ((3 : Int) - (runQuery db (materialQuery u) : Int))) := by
  have h3 : ¬ 3 ≤ runQuery db (materialQuery u) := by
    simp [FREE_LIMITS] at h
    omega
  unfold checkMaterialLimit Store.toF
  simp [FREE_LIMITS, h3, Except.map]

/-- When the quiz count is below the limit, the allowed Decision's
`remaining` is `limit - count`. -/
lemma checkQuizLimit_remaining (db : Store) (now : LocalTime) (u : String)
    (h : runQuery db (quizQuery now u) < FREE_LIMITS.quizzesPerMonth) :
    (checkQuizLimit (Store.toF db) now u).map Decision.remaining
      = Except.ok (some ((5 : Int) - (runQuery db (quizQuery now u) : Int))) := by
  have h5 : ¬ 5 ≤ runQuery db (quizQuery now u) := by
    simp [FREE_LIMITS] at h
    omega
  unfold checkQuizLimit Store.toF
  simp [FREE_LIMITS, h5, Except.map]

/-- When the writing count is below the limit, the allowed Decision's
`remaining` is `limit - count`. -/
lemma checkWritingLimit_remaining (db : Store) (now : LocalTime) (u : String)
    (h : runQuery db (writingQuery now u) < FREE_LIMITS.aiWritingsPerDay) :
    (checkWritingLimit (Store.toF db) now u).map Decision.remaining
      = Except.ok (some ((1 : Int) - (runQuery db (writingQuery now u) : Int))) := by
  have h1 : ¬ 1 ≤ runQuery db (writingQuery now u) := by
    simp [FREE_LIMITS] at h
    omega
  unfold checkWritingLimit Store.toF
  simp [FREE_LIMITS, h1, Except.map]

/-- A store state with one quiz result of user `"u"` completed on
2026-10-05. -/
def quizDb : Store :=
  [{ coll := "quiz_results", userId := "u"
     fields := [("completedAt", { year := 2026, month := 9, day := 5, ms := 0 })] }]

/-- An evaluation instant in the following month: 2026-11-15 local
midnight (month 10 is November, 0-based). -/
def novT : LocalTime := { year := 2026, month := 10, day := 15, ms := 0 }

/-- Counterexample to C8 as stated: the Decision is not a pure function
of the store state alone.  On the same store state `quizDb` (one quiz
completed 2026-10-05, no intervening writes), `canUserPerformAction` for
`take_quiz` evaluated in October reports `current = 1, remaining = 4`,
while evaluated in November it reports `current = 0, remaining = 5` —
two different Decision values: the decision also depends on the
wall-clock instant through the calendar windows. -/
theorem c8_time_dependence_counterexample :
    canUserPerformAction (Store.toF quizDb) t0 "u" "take_quiz"
        = Except.ok { allowed := true, current := some 1, limit := some 5,
                      remaining := some 4 }
    ∧ canUserPerformAction (Store.toF quizDb) novT "u" "take_quiz"
        = Except.ok { allowed := true, current := some 0, limit := some 5,
                      remaining := some 5 }
    ∧ ({ allowed := true, current := some 1, limit := some 5,
         remaining := some 4 } : Decision)
        ≠ { allowed := true, current := some 0, limit := some 5,
            remaining := some 5 } :=
  ⟨rfl, rfl, by decide⟩

/-- C8 (amended): two calls to `canUserPerformAction` evaluated at the
same wall-clock instant, against stores that answer the user's three
window queries identically (in particular the same store with no
intervening writes), return identical Decision values for every action
kind: at a fixed instant the Decision is a pure function of the store's
responses. -/
theorem c8_same_state_same_decision (s1 s2 : FStore) (now : LocalTime)
    (u : String)
    (hm : s1 (materialQuery u) = s2 (materialQuery u))
    (hq : s1 (quizQuery now u) = s2 (quizQuery now u))
    (hw : s1 (writingQuery now u) = s2 (writingQuery now u)) (a : String) :
    canUserPerformAction s1 now u a = canUserPerformAction s2 now u a := by
  unfold canUserPerformAction canUserPerformActionPlan getUserPlan
  simp only [bne_self_eq_false, Bool.false_eq_true, if_false]
  split
  · unfold checkMaterialLimit
    rw [hm]
  · unfold checkQuizLimit
    rw [hq]
  · unfold checkWritingLimit
    rw [hw]
  · rfl
  · rfl

/-- Witness for C8 (amended): the empty concrete store and the
constant-zero store agree on all queries, so `take_quiz` evaluates
identically on both. -/
theorem c8_same_state_same_decision_witness :
    canUserPerformAction (Store.toF []) t0 "u" "take_quiz"
      = canUserPerformAction (fun _ => Except.ok 0) t0 "u" "take_quiz" :=
  c8_same_state_same_decision (Store.toF []) (fun _ => Except.ok 0) t0 "u"
    rfl rfl rfl "take_quiz"

/-- C9: within the allowed range (`current < limit`), each counter's
`remaining` is `limit - current`, so raising `current` by 1 lowers
`remaining` by exactly 1 and `remaining` never goes negative.  The step
is stated for the material and quiz counters over any pair of store
states whose counts differ by one; for the writing counter the limit is
1, so `current < limit` holds only at `current = 0` (there is no
two-step chain) and the theorem records the single point
`remaining = 1 - current ≥ 0`. -/
theorem c9_remaining_steps_down_by_one (db db' : Store) (now : LocalTime)
    (u : String) :
    (∀ c, runQuery db (materialQuery u) = c →
      runQuery db' (materialQuery u) = c + 1 →
      c + 1 < FREE_LIMITS.studyMaterials →
      (checkMaterialLimit (Store.toF db) u).map Decision.remaining
          = Except.ok (some ((3 : Int) - (c : Int)))
      ∧ (checkMaterialLimit (Store.toF db') u).map Decision.remaining
          = Except.ok (some (((3 : Int) - (c : Int)) - 1))
      ∧ 0 ≤ ((3 : Int) - (c : Int)) - 1)
    ∧ (∀ c, runQuery db (quizQuery now u) = c →
      runQuery db' (quizQuery now u) = c + 1 →
      c + 1 < FREE_LIMITS.quizzesPerMonth →
      (checkQuizLimit (Store.toF db) now u).map Decision.remaining
          = Except.ok (some ((5 : Int) - (c : Int)))
      ∧ (checkQuizLimit (Store.toF db') now u).map Decision.remaining
          = Except.ok (some (((5 : Int) - (c : Int)) - 1))
      ∧ 0 ≤ ((5 : Int) - (c : Int)) - 1)
    ∧ (∀ c, runQuery db (writingQuery now u) = c →
      c < FREE_LIMITS.aiWritingsPerDay →
      (checkWritingLimit (Store.toF db) now u).map Decision.remaining
          = Except.ok (some ((1 : Int) - (c : Int)))
      ∧ 0 ≤ (1 : Int) - (c : Int)) := by
  refine ⟨?_, ?_, ?_⟩
  · intro c h h' hl
    simp only [FREE_LIMITS] at hl
    have l1 := checkMaterialLimit_remaining db u (by rw [h]; simp [FREE_LIMITS]; omega)
    have l2 := checkMaterialLimit_remaining db' u (by rw [h']; simp [FREE_LIMITS]; omega)
    rw [h] at l1
    rw [h'] at l2
    refine ⟨l1, ?_, by omega⟩
    rw [l2]
    have : ((3 : Int) - ((c + 1 : Nat) : Int)) = ((3 : Int) - (c : Int)) - 1 := by
      push_cast
      ring
    rw [this]
  · intro c h h' hl
    simp only [FREE_LIMITS] at hl
    have l1 := checkQuizLimit_remaining db now u (by rw [h]; simp [FREE_LIMITS]; omega)
    have l2 := checkQuizLimit_remaining db' now u (by rw [h']; simp [FREE_LIMITS]; omega)
    rw [h] at l1
    rw [h'] at l2
    refine ⟨l1, ?_, by omega⟩
    rw [l2]
    have : ((5 : Int) - ((c + 1 : Nat) : Int)) = ((5 : Int) - (c : Int)) - 1 := by
      push_cast
      ring
    rw [this]
  · intro c h hl
    simp only [FREE_LIMITS] at hl
    have l1 := checkWritingLimit_remaining db now u (by rw [h]; simp [FREE_LIMITS]; omega)
    rw [h] at l1
    exact ⟨l1, by omega⟩

/-- A store state with exactly one study material of user `"u"`. -/
def oneMaterialDb : Store :=
  [{ coll := "study_materials", userId := "u", fields := [] }]

/-- Witness for C9: between the empty store (0 materials) and
`oneMaterialDb` (1 material), `remaining` goes from 3 to 2. -/
theorem c9_remaining_steps_down_by_one_witness :
    (checkMaterialLimit (Store.toF []) "u").map Decision.remaining
        = Except.ok (some 3)
    ∧ (checkMaterialLimit (Store.toF oneMaterialDb) "u").map Decision.remaining
        = Except.ok (some 2)
    ∧ (0 : Int) ≤ 2 := by
  have h := (c9_remaining_steps_down_by_one [] oneMaterialDb t0 "u").1 0
    rfl rfl (by decide)
  simpa using h

/-- C10: the plan gate is case-sensitive equality with the exact string
`"free"`.  First conjunct: the shipped `getUserPlan` returns `"free"`
for every user, so every gated evaluation reaches the free-plan
counters (third conjunct: on each gated action `canUserPerformAction`
is exactly the corresponding counter, for any store).  Second conjunct:
had the resolver returned one of the capitalized display names stored in
`PLAN_NAMES` (`"Free"`, `"Starter"`, `"Pro"`), the evaluator body would
return the bare allow without consulting the (universally quantified)
Record Store. -/
theorem c10_case_sensitive_free_gate :
    (∀ u : String, getUserPlan u = "free")
    ∧ (∀ (getDocs : FStore) (now : LocalTime) (u a : String),
        canUserPerformActionPlan getDocs now PLAN_NAMES.free u a
            = Except.ok { allowed := true }
        ∧ canUserPerformActionPlan getDocs now PLAN_NAMES.starter u a
            = Except.ok { allowed := true }
        ∧ canUserPerformActionPlan getDocs now PLAN_NAMES.pro u a
            = Except.ok { allowed := true })
    ∧ (∀ (getDocs : FStore) (now : LocalTime) (u : String),
        canUserPerformAction getDocs now u "upload_material"
            = checkMaterialLimit getDocs u
        ∧ canUserPerformAction getDocs now u "take_quiz"
            = checkQuizLimit getDocs now u
        ∧ canUserPerformAction getDocs now u "ai_writing"
            = checkWritingLimit getDocs now u) :=
  ⟨fun _ => rfl,
    fun _ _ _ _ => ⟨rfl, rfl, rfl⟩,
    fun _ _ _ => ⟨rfl, rfl, rfl⟩⟩
